import Mathlib

/-!
Shallow embedding of the resilient Modbus register client of the AtreaHRU
Homebridge plugin (`HRUAccessory` in `platformAccessory.ts`).  JavaScript
`Map`s are embedded as association lists, timestamps and durations as `Nat`
milliseconds, register values as `Int`, and the single-threaded event loop as
explicit state passing (pure functions for straight-line code, step relations
for the interleaving of asynchronous tasks).
-/

namespace AtreaHRU

/-- Association-list lookup, embedding `Map.get`. -/
def lookupKey {α β : Type} [DecidableEq α] (key : α) : List (α × β) → Option β
  | [] => none
  | (k, v) :: rest => if k = key then some v else lookupKey key rest

/-- Association-list removal of a key, embedding `Map.delete`. -/
def eraseKey {α β : Type} [DecidableEq α] (key : α) : List (α × β) → List (α × β)
  | [] => []
  | (k, v) :: rest => if k = key then eraseKey key rest else (k, v) :: eraseKey key rest

/-! ## CacheStore: the `CachedValue<T>` interface and the cache helpers -/

/-- The `CachedValue<T>` interface: `{value, timestamp, ttl}`. -/
structure CachedValue where
  value : Int
  timestamp : Nat
  ttl : Nat
deriving DecidableEq

/-- The private `cache` map of `HRUAccessory` (string keys). -/
abbrev Cache := List (String × CachedValue)

/-- Cache key built by `batchReadRegister`: the string `read_<register>`. -/
def cacheKey (register : Nat) : String := "read_" ++ toString register

/-- Embeds `getCachedValue`: returns the cached value when present and not
expired; an entry older than its ttl (`Date.now() - cached.timestamp >
cached.ttl`) is deleted and `null` returned.  The function returns the value
together with the possibly-shrunk cache. -/
def getCachedValue (now : Nat) (key : String) (cache : Cache) : Option Int × Cache :=
  match lookupKey key cache with
  | none => (none, cache)
  | some cached =>
      if cached.ttl < now - cached.timestamp then (none, eraseKey key cache)
      else (some cached.value, cache)

/-- Embeds `setCachedValue`: `cache.set(key, {value, timestamp: Date.now(), ttl})`. -/
def setCachedValue (now : Nat) (key : String) (value : Int) (ttl : Nat) (cache : Cache) :
    Cache :=
  (key, ⟨value, now, ttl⟩) :: eraseKey key cache

/-- The validity window the specification ascribes to a cache entry: valid
exactly while `now - writtenAt < ttl` (strict).  Stated from the spec's words,
to be compared against `getCachedValue`. -/
def specCacheValid (now : Nat) (e : CachedValue) : Prop := now - e.timestamp < e.ttl

instance (now : Nat) (e : CachedValue) : Decidable (specCacheValid now e) := by
  unfold specCacheValid
  infer_instance

/-! ## Read coalescing: `pendingReads`, `batchReadRegister` and read completion -/

/-- Client-side read state: the cache, the `pendingReads` map from register to
the in-flight read promise (promises are identified by a counter), the next
fresh promise identifier, and a count of device read requests actually issued
(each `client.readHoldingRegisters` call). -/
structure CState where
  cache : Cache
  pendingReads : List (Nat × Nat)
  nextPromiseId : Nat
  deviceRequests : Nat
deriving DecidableEq

/-- The three ways `batchReadRegister` can answer a caller. -/
inductive ReadResult where
  | cacheHit (value : Int)
  | joined (promise : Nat)
  | newRead (promise : Nat)
deriving DecidableEq

/-- Embeds `batchReadRegister(register)`: check the cache under key
`read_<register>`; on a hit return the cached value; otherwise join an
in-flight `pendingReads` entry when present; otherwise issue a fresh device
read, record its promise in `pendingReads` and count one device request. -/
def batchReadRegister (now register : Nat) (s : CState) : ReadResult × CState :=
  let looked := getCachedValue now (cacheKey register) s.cache
  match looked.1 with
  | some v => (ReadResult.cacheHit v, { s with cache := looked.2 })
  | none =>
      match lookupKey register s.pendingReads with
      | some p => (ReadResult.joined p, { s with cache := looked.2 })
      | none =>
          (ReadResult.newRead s.nextPromiseId,
            { s with
                cache := looked.2,
                pendingReads := (register, s.nextPromiseId) :: s.pendingReads,
                nextPromiseId := s.nextPromiseId + 1,
                deviceRequests := s.deviceRequests + 1 })

/-- Embeds the `.then` continuation of the read promise in
`batchReadRegister`: store the resolved value with the configured ttl and
clear the pending marker. -/
def completeReadSuccess (now register : Nat) (value : Int) (cacheTimeout : Nat) (s : CState) :
    CState :=
  { s with
      cache := setCachedValue now (cacheKey register) value cacheTimeout s.cache,
      pendingReads := eraseKey register s.pendingReads }

/-- Embeds the `.catch` continuation of the read promise in
`batchReadRegister`: clear the pending marker and rethrow. -/
def completeReadFailure (register : Nat) (s : CState) : CState :=
  { s with pendingReads := eraseKey register s.pendingReads }

/-! ## Characteristic handlers: logical on/off mapping and write-side effects -/

/-- Embeds the value mapping of `handleOnGetOn`: `value === 0 ? 0 : 1`. -/
def handleOnGetOnValue (raw : Int) : Int := if raw = 0 then 0 else 1

/-- Embeds the value mapping of `handleOnSetOn`: `(value as number) >= 1 ? 2 : 0`. -/
def handleOnSetOnValue (value : Int) : Int := if 1 ≤ value then 2 else 0

/-- Embeds the cache invalidation of `handleOnSetOn`:
`this.cache.delete('read_' + regimeRegister)`. -/
def handleOnSetOnCache (regimeRegister : Nat) (c : Cache) : Cache :=
  eraseKey (cacheKey regimeRegister) c

/-- Embeds the cache invalidation of `handleOnSetSpeed`: delete the cache
entries of both the regime register and the speed register. -/
def handleOnSetSpeedCache (regimeRegister speedRegister : Nat) (c : Cache) : Cache :=
  eraseKey (cacheKey speedRegister) (eraseKey (cacheKey regimeRegister) c)

/-! ## The device and the action traces of the write handlers -/

/-- The Modbus device: an assignment of integer values to register addresses
(absent registers read as 0). -/
structure Device where
  regs : List (Nat × Int)
deriving DecidableEq

/-- Reading a holding register of the device. -/
def readReg (d : Device) (r : Nat) : Int := (lookupKey r d.regs).getD 0

/-- Writing a holding register of the device. -/
def writeReg (d : Device) (r : Nat) (v : Int) : Device :=
  ⟨(r, v) :: eraseKey r d.regs⟩

/-- Device-facing actions emitted by a write handler, in program order. -/
inductive Action where
  | write (register : Nat) (value : Int)
  | sleepMs (ms : Nat)
deriving DecidableEq

/-- Running a trace of actions against the device (sleeps do not change it). -/
def applyActions (d : Device) : List Action → Device
  | [] => d
  | Action.write r v :: rest => applyActions (writeReg d r v) rest
  | Action.sleepMs _ :: rest => applyActions d rest

/-- Embeds the device-facing actions of `handleOnSetSpeed`, given `state`, the
regime value obtained from `batchReadRegister(regimeRegister)`, and the
requested `speed`: when the device is off and a positive speed is requested,
write the on-sentinel 2 to the regime register and sleep 800ms; then always
write the requested speed to the speed register. -/
def handleOnSetSpeedActions (regimeRegister speedRegister : Nat) (state speed : Int) :
    List Action :=
  (if state = 0 ∧ 0 < speed then [Action.write regimeRegister 2, Action.sleepMs 800] else [])
    ++ [Action.write speedRegister speed]

/-- Embeds the device-facing action of `handleOnSetOn`: a single write of the
mapped raw value to the regime register. -/
def handleOnSetOnActions (regimeRegister : Nat) (value : Int) : List Action :=
  [Action.write regimeRegister (handleOnSetOnValue value)]

/-! ## OperationQueue: admission and the drain loop of `processQueue` -/

/-- Queue-side state of one `HRUAccessory` instance: the pending
`operationQueue`, the `isProcessingQueue` guard, the operations currently
being awaited by the drain loop (`inFlight`), the completed operations in
completion order (`executed`), the size of `activeOperations`, and the
`isCleaningUp` flag.  Operations are identified by numbers. -/
structure QueueState where
  operationQueue : List Nat
  isProcessingQueue : Bool
  inFlight : List Nat
  executed : List Nat
  activeSize : Nat
  isCleaningUp : Bool
deriving DecidableEq

/-- `maxConcurrentOperations = 3`. -/
def maxConcurrentOperations : Nat := 3

/-- Embeds the admission part of `addToQueue`: reject during cleanup, reject
when `activeOperations.size >= maxConcurrentOperations`, otherwise append the
operation (or put it at the head when `priority` is set). -/
def addToQueue (s : QueueState) (op : Nat) (priority : Bool) : Except String QueueState :=
  if s.isCleaningUp then Except.error "Cannot add operations during cleanup"
  else if maxConcurrentOperations ≤ s.activeSize then
    Except.error "Too many concurrent operations"
  else
    Except.ok { s with
      operationQueue := if priority then op :: s.operationQueue else s.operationQueue ++ [op] }

/-- The queue state of a freshly constructed instance. -/
def qInit : QueueState := ⟨[], false, [], [], 0, false⟩

/-- All admitted operations that have not been lost, in execution order:
completed first, then the one being executed, then the waiting queue. -/
def fullSeq (s : QueueState) : List Nat := s.executed ++ s.inFlight ++ s.operationQueue

/-- Event-loop steps of the drain loop `processQueue`, transcribed from the
code: `enter` is the guarded activation (`isProcessingQueue` false, queue
nonempty, not cleaning up); `startOp` is one iteration shifting the queue head
into execution — the loop only reaches the next `shift()` after the previous
`await operation()` resolved, so a start requires `inFlight = []`; `finishOp`
is that resolution; `exitLoop` deactivates the drain when the loop ends. -/
inductive ExecStep : QueueState → QueueState → Prop where
  | enter (s : QueueState) :
      s.isProcessingQueue = false → s.operationQueue ≠ [] → s.isCleaningUp = false →
      ExecStep s { s with isProcessingQueue := true }
  | startOp (s : QueueState) (op : Nat) (rest : List Nat) :
      s.isProcessingQueue = true → s.isCleaningUp = false →
      s.inFlight = [] → s.operationQueue = op :: rest →
      ExecStep s
        { s with operationQueue := rest, inFlight := [op], activeSize := s.activeSize + 1 }
  | finishOp (s : QueueState) (op : Nat) :
      s.inFlight = [op] →
      ExecStep s
        { s with inFlight := [], executed := s.executed ++ [op],
                 activeSize := s.activeSize - 1 }
  | exitLoop (s : QueueState) :
      s.isProcessingQueue = true → s.inFlight = [] →
      ExecStep s { s with isProcessingQueue := false }

/-- Full event-loop steps: an admission by any concurrent caller of
`addToQueue`, or a drain-loop step. -/
inductive QStep : QueueState → QueueState → Prop where
  | admission (s s' : QueueState) (op : Nat) (priority : Bool) :
      addToQueue s op priority = Except.ok s' → QStep s s'
  | exec (s s' : QueueState) : ExecStep s s' → QStep s s'

/-- Queue states reachable from a fresh instance under any interleaving of
concurrent admissions and the drain loop. -/
def QReach (s : QueueState) : Prop := Relation.ReflTransGen QStep qInit s

/-! ## Connection lifecycle, retry counter and exponential backoff -/

/-- Failure classification of a device-facing operation, per the spec's
taxonomy.  `deviceBusy` is the Modbus protocol exception code 6
("slave/server device busy"). -/
inductive OpError where
  | deviceBusy
  | transportError
  | timeoutError
deriving DecidableEq

/-- Connection-side state of one instance: the `isConnected` flag, the
`connectionRetryCount`, the cache and pending reads (cleared on connection
events), and whether a reconnect timer is scheduled. -/
structure ClientState where
  isConnected : Bool
  connectionRetryCount : Nat
  cache : Cache
  pendingReads : List (Nat × Nat)
  reconnectScheduled : Bool
deriving DecidableEq

/-- `connectionRetryBaseDelay = 5000`. -/
def connectionRetryBaseDelay : Nat := 5000

/-- Embeds the delay computation of `scheduleReconnect`:
`Math.min(baseDelay * Math.pow(2, connectionRetryCount), 60000)`; every caller
in the code leaves `delay` unset, so `baseDelay` is the 5000ms default. -/
def exponentialDelay (retryCount : Nat) : Nat :=
  min (connectionRetryBaseDelay * 2 ^ retryCount) 60000

/-- The scheduled reconnect delay including the jitter summand
(`Math.random() * 1000`, passed here as an explicit `jitter` argument). -/
def reconnectDelay (retryCount jitter : Nat) : Nat := exponentialDelay retryCount + jitter

/-- Embeds the state effect of `scheduleReconnect`: a reconnect timer becomes
scheduled, and once `connectionRetryCount` has reached `maxRetries` the
counter is reset to 0 for the next cycle. -/
def scheduleReconnect (maxRetries : Nat) (s : ClientState) : ClientState :=
  { s with
      reconnectScheduled := true,
      connectionRetryCount :=
        if maxRetries ≤ s.connectionRetryCount then 0 else s.connectionRetryCount }

/-- Embeds `clearCache`: `cache.clear(); pendingReads.clear()`. -/
def clearCacheState (s : ClientState) : ClientState :=
  { s with cache := [], pendingReads := [] }

/-- Embeds `handleConnectionFailure`: mark the connection broken, clear the
cache, and schedule a reconnect. -/
def handleConnectionFailure (maxRetries : Nat) (s : ClientState) : ClientState :=
  scheduleReconnect maxRetries (clearCacheState { s with isConnected := false })

/-- Embeds the `catch` branch of `executeWithRetry`: the recovery path applied
to a failed operation.  The code never inspects the error — every failure,
whatever its classification, goes through `handleConnectionFailure`. -/
def handleOperationFailure (maxRetries : Nat) (_e : OpError) (s : ClientState) : ClientState :=
  handleConnectionFailure maxRetries s

/-- Connection-lifecycle steps transcribed from the code: `connectSuccess` is
the success tail of `doConnect` (connected, retry counter zeroed, cache
flushed, pending reconnect cleared); `connectFailure` its failure tail;
`operationSuccess` is a device operation completing, which `executeWithRetry`
only runs while connected; `operationFailure` is its catch branch;
`reconnectRequest` is a call of `scheduleReconnect`. -/
inductive ConnStep (maxRetries : Nat) : ClientState → ClientState → Prop where
  | connectSuccess (s : ClientState) :
      ConnStep maxRetries s
        { s with isConnected := true, connectionRetryCount := 0,
                 cache := [], pendingReads := [], reconnectScheduled := false }
  | connectFailure (s : ClientState) :
      ConnStep maxRetries s
        { s with isConnected := false,
                 connectionRetryCount := s.connectionRetryCount + 1 }
  | operationSuccess (s : ClientState) :
      s.isConnected = true → ConnStep maxRetries s s
  | operationFailure (s : ClientState) (e : OpError) :
      ConnStep maxRetries s (handleOperationFailure maxRetries e s)
  | reconnectRequest (s : ClientState) :
      ConnStep maxRetries s (scheduleReconnect maxRetries s)

/-- The connection state of a freshly constructed instance. -/
def connInit : ClientState := ⟨false, 0, [], [], false⟩

/-- Connection states reachable from a fresh instance. -/
def ConnReach (maxRetries : Nat) (s : ClientState) : Prop :=
  Relation.ReflTransGen (ConnStep maxRetries) connInit s

/-! ## InstanceRegistry: the static `activeConnections` map and teardown -/

/-- One `HRUAccessory` instance as far as the duplicate-connection guard is
concerned: its identifier, its `connectionKey` (`ip:port` endpoint), whether a
transport handle exists (`client !== null`), its timer bookkeeping
(`timeoutRegistry` size, heartbeat and reconnect timers), its operation
queue, and the `isCleaningUp` flag. -/
structure Inst where
  instId : Nat
  connectionKey : String
  hasClient : Bool
  timeoutCount : Nat
  heartbeatSet : Bool
  reconnectSet : Bool
  operationQueue : List Nat
  isCleaningUp : Bool
deriving DecidableEq

/-- The process-wide picture: the static `activeConnections` registry mapping
endpoint keys to instance identifiers, and the set of constructed instances. -/
structure World where
  registry : List (String × Nat)
  instances : List Inst
deriving DecidableEq

/-- Embeds `checkForDuplicateConnections`: when the registry holds an entry
for this endpoint that is a distinct instance, force-clean it (which sets its
`isCleaningUp` flag) and delete the registry entry. -/
def checkForDuplicateConnections (key : String) (newId : Nat) (w : World) : World :=
  match lookupKey key w.registry with
  | some oldId =>
      if oldId ≠ newId then
        { registry := eraseKey key w.registry,
          instances := w.instances.map fun i =>
            if i.instId = oldId then { i with isCleaningUp := true } else i }
      else w
  | none => w

/-- Embeds the registration part of the constructor: run the duplicate check,
then install this instance in `activeConnections` (a `Map.set`, i.e. replace
at the key) and record the new instance, initially without a transport. -/
def constructInstance (key : String) (newId : Nat) (w : World) : World :=
  { registry :=
      (key, newId) :: eraseKey key (checkForDuplicateConnections key newId w).registry,
    instances :=
      ⟨newId, key, false, 0, false, false, [], false⟩ ::
        (checkForDuplicateConnections key newId w).instances }

/-- Embeds the success of `doConnect` for an instance: a fresh transport
handle exists. -/
def connectInstance (targetId : Nat) (w : World) : World :=
  { w with instances := w.instances.map fun i =>
      if i.instId = targetId then { i with hasClient := true } else i }

/-- Embeds the per-instance effect of `doCleanup`: stop the heartbeat and
reconnect timers, clear every registered timeout, drop the queue, and close
the transport. -/
def doCleanupInst (i : Inst) : Inst :=
  { i with heartbeatSet := false, reconnectSet := false, timeoutCount := 0,
           operationQueue := [], hasClient := false }

/-- Embeds `doCleanup` run by an instance: release its resources and delete
the `activeConnections` entry under its `connectionKey` (the code deletes by
key without checking that the entry still denotes this instance). -/
def runDoCleanup (targetId : Nat) (w : World) : World :=
  match w.instances.find? (fun i => i.instId == targetId) with
  | none => w
  | some inst =>
      { registry := eraseKey inst.connectionKey w.registry,
        instances := w.instances.map fun i =>
          if i.instId = targetId then doCleanupInst i else i }

/-- The instances for an endpoint that are live (not being cleaned up). -/
def liveInstancesFor (key : String) (w : World) : List Inst :=
  w.instances.filter fun i => i.connectionKey == key && !i.isCleaningUp

/-- The instances for an endpoint that hold a transport connection. -/
def clientsFor (key : String) (w : World) : List Inst :=
  w.instances.filter fun i => i.connectionKey == key && i.hasClient

/-- Registry well-formedness: at most one entry per endpoint key. -/
def registryKeysNodup (w : World) : Prop := (w.registry.map Prod.fst).Nodup

instance (w : World) : Decidable (registryKeysNodup w) := by
  unfold registryKeysNodup
  infer_instance

/-! ## Helper lemmas about the association-list operations -/

theorem lookupKey_eraseKey_self {α β : Type} [DecidableEq α] (key : α) (l : List (α × β)) :
    lookupKey key (eraseKey key l) = none := by
  induction l with
  | nil => rfl
  | cons hd tl ih =>
    by_cases h : hd.1 = key
    · simpa [eraseKey, h] using ih
    · simpa [eraseKey, lookupKey, h] using ih

theorem lookupKey_eraseKey_ne {α β : Type} [DecidableEq α] (key key' : α) (l : List (α × β))
    (h : key' ≠ key) : lookupKey key' (eraseKey key l) = lookupKey key' l := by
  induction l with
  | nil => rfl
  | cons hd tl ih =>
    obtain ⟨a, b⟩ := hd
    by_cases hk : a = key
    · subst hk
      simp [eraseKey, lookupKey, Ne.symm h, ih]
    · by_cases hk' : a = key'
      · subst hk'
        simp [eraseKey, lookupKey, hk, h]
      · simp [eraseKey, lookupKey, hk, hk', ih]

theorem not_mem_keys_eraseKey {α β : Type} [DecidableEq α] (key : α) (l : List (α × β)) :
    key ∉ (eraseKey key l).map Prod.fst := by
  induction l with
  | nil => simp [eraseKey]
  | cons hd tl ih =>
    obtain ⟨a, b⟩ := hd
    by_cases h : a = key
    · simpa [eraseKey, h] using ih
    · have he : eraseKey key ((a, b) :: tl) = (a, b) :: eraseKey key tl := by
        simp [eraseKey, h]
      rw [he]
      simp only [List.map_cons, List.mem_cons, not_or]
      exact ⟨fun hc => h hc.symm, ih⟩

theorem keys_eraseKey_sublist {α β : Type} [DecidableEq α] (key : α) (l : List (α × β)) :
    ((eraseKey key l).map Prod.fst).Sublist (l.map Prod.fst) := by
  induction l with
  | nil => simp [eraseKey]
  | cons hd tl ih =>
    obtain ⟨a, b⟩ := hd
    by_cases h : a = key
    · have he : eraseKey key ((a, b) :: tl) = eraseKey key tl := by
        simp [eraseKey, h]
      rw [he, List.map_cons]
      exact ih.cons _
    · have he : eraseKey key ((a, b) :: tl) = (a, b) :: eraseKey key tl := by
        simp [eraseKey, h]
      rw [he, List.map_cons, List.map_cons]
      exact ih.cons₂ _

theorem nodup_keys_eraseKey {α β : Type} [DecidableEq α] (key : α) (l : List (α × β))
    (h : (l.map Prod.fst).Nodup) : ((eraseKey key l).map Prod.fst).Nodup :=
  (keys_eraseKey_sublist key l).nodup h

theorem nodup_keys_filter_length_le_one {α β : Type} [DecidableEq α]
    (l : List (α × β)) (key : α) (h : (l.map Prod.fst).Nodup) :
    (l.filter (fun e => e.1 == key)).length ≤ 1 := by
  induction l with
  | nil => simp
  | cons hd tl ih =>
    simp only [List.map_cons, List.nodup_cons] at h
    by_cases hk : hd.1 = key
    · have hnone : tl.filter (fun e => e.1 == key) = [] := by
        apply List.filter_eq_nil_iff.mpr
        intro e he
        simp only [beq_iff_eq]
        intro hc
        exact h.1 (List.mem_map.mpr ⟨e, he, by rw [hc, hk]⟩)
      simp [List.filter_cons, hk, hnone]
    · simpa [List.filter_cons, hk] using ih h.2

/-! ## Lemmas about the operation queue -/

theorem addToQueue_ok (s : QueueState) (op : Nat) (priority : Bool) (s' : QueueState)
    (h : addToQueue s op priority = Except.ok s') :
    s' = { s with operationQueue :=
      if priority then op :: s.operationQueue else s.operationQueue ++ [op] } := by
  unfold addToQueue at h
  split at h
  · simp at h
  · split at h
    · simp at h
    · injection h with h
      exact h.symm

theorem qstep_inFlight_le_one (s s' : QueueState) (h : QStep s s')
    (hs : s.inFlight.length ≤ 1) : s'.inFlight.length ≤ 1 := by
  cases h with
  | admission op priority hok =>
    obtain rfl := addToQueue_ok _ _ _ _ hok
    simpa using hs
  | exec he =>
    cases he with
    | enter h1 h2 h3 => simpa using hs
    | startOp op rest h1 h2 h3 h4 => simp
    | finishOp op h1 => simp
    | exitLoop h1 h2 => simpa using hs

theorem qreach_inFlight_le_one (s : QueueState) (h : QReach s) : s.inFlight.length ≤ 1 := by
  unfold QReach at h
  induction h with
  | refl => simp [qInit]
  | tail h1 h2 ih => exact qstep_inFlight_le_one _ _ h2 ih

theorem execStep_fullSeq (s s' : QueueState) (h : ExecStep s s') : fullSeq s' = fullSeq s := by
  cases h with
  | enter h1 h2 h3 => simp [fullSeq]
  | startOp op rest h1 h2 h3 h4 => simp [fullSeq, h3, h4]
  | finishOp op h1 => simp [fullSeq, h1]
  | exitLoop h1 h2 => simp [fullSeq]

theorem execReach_fullSeq (s t : QueueState) (h : Relation.ReflTransGen ExecStep s t) :
    fullSeq t = fullSeq s := by
  induction h with
  | refl => rfl
  | tail h1 h2 ih => rw [execStep_fullSeq _ _ h2, ih]

theorem getCachedValue_of_lookup_none (now : Nat) (key : String) (cache : Cache)
    (h : lookupKey key cache = none) : getCachedValue now key cache = (none, cache) := by
  simp [getCachedValue, h]

theorem getCachedValue_none_idem (now : Nat) (key : String) (cache : Cache)
    (h : (getCachedValue now key cache).1 = none) :
    (getCachedValue now key (getCachedValue now key cache).2).1 = none := by
  unfold getCachedValue at *
  cases hl : lookupKey key cache with
  | none => simp [hl] at h ⊢
  | some cached =>
    simp only [hl] at h ⊢
    by_cases hexp : cached.ttl < now - cached.timestamp
    · simp [hexp, lookupKey_eraseKey_self]
    · simp [hexp] at h

theorem getCachedValue_snd_lookup_none (now : Nat) (key : String) (cache : Cache)
    (h : (getCachedValue now key cache).1 = none) :
    lookupKey key (getCachedValue now key cache).2 = none := by
  unfold getCachedValue at *
  cases hl : lookupKey key cache with
  | none => simp [hl]
  | some cached =>
    simp only [hl] at h ⊢
    by_cases hexp : cached.ttl < now - cached.timestamp
    · simp [hexp, lookupKey_eraseKey_self]
    · simp [hexp] at h

theorem batchRead_cacheHit (now register : Nat) (s : CState) (v : Int)
    (hhit : (getCachedValue now (cacheKey register) s.cache).1 = some v) :
    batchReadRegister now register s =
      (ReadResult.cacheHit v,
        { s with cache := (getCachedValue now (cacheKey register) s.cache).2 }) := by
  simp only [batchReadRegister]
  rw [hhit]

theorem batchRead_join (now register : Nat) (s : CState) (p : Nat)
    (hmiss : (getCachedValue now (cacheKey register) s.cache).1 = none)
    (hpend : lookupKey register s.pendingReads = some p) :
    batchReadRegister now register s =
      (ReadResult.joined p,
        { s with cache := (getCachedValue now (cacheKey register) s.cache).2 }) := by
  simp only [batchReadRegister]
  rw [hmiss, hpend]

theorem batchRead_newRead (now register : Nat) (s : CState)
    (hmiss : (getCachedValue now (cacheKey register) s.cache).1 = none)
    (hpend : lookupKey register s.pendingReads = none) :
    batchReadRegister now register s =
      (ReadResult.newRead s.nextPromiseId,
        { s with
            cache := (getCachedValue now (cacheKey register) s.cache).2,
            pendingReads := (register, s.nextPromiseId) :: s.pendingReads,
            nextPromiseId := s.nextPromiseId + 1,
            deviceRequests := s.deviceRequests + 1 }) := by
  simp only [batchReadRegister]
  rw [hmiss, hpend]

/-! ## Lemmas about the connection lifecycle -/

theorem connStep_retry_zero (maxRetries : Nat) (s s' : ClientState)
    (h : ConnStep maxRetries s s')
    (hs : s.isConnected = true → s.connectionRetryCount = 0) :
    s'.isConnected = true → s'.connectionRetryCount = 0 := by
  cases h with
  | connectSuccess => intro _; rfl
  | connectFailure => intro hc; simp at hc
  | operationSuccess h1 => exact hs
  | operationFailure e =>
    intro hc
    simp [handleOperationFailure, handleConnectionFailure, scheduleReconnect,
      clearCacheState] at hc
  | reconnectRequest =>
    intro hc
    have hc' : s.isConnected = true := hc
    simp [scheduleReconnect, hs hc']

theorem connReach_connected_retry_zero (maxRetries : Nat) (s : ClientState)
    (h : ConnReach maxRetries s) : s.isConnected = true → s.connectionRetryCount = 0 := by
  unfold ConnReach at h
  induction h with
  | refl => intro _; rfl
  | tail h1 h2 ih => exact connStep_retry_zero _ _ _ h2 ih

/-! ## Lemmas about the instance registry -/

theorem checkForDuplicate_registry (key : String) (newId : Nat) (w : World) :
    (checkForDuplicateConnections key newId w).registry = w.registry ∨
    (checkForDuplicateConnections key newId w).registry = eraseKey key w.registry := by
  unfold checkForDuplicateConnections
  cases hl : lookupKey key w.registry with
  | none => exact Or.inl rfl
  | some oldId =>
    by_cases h : oldId ≠ newId
    · simp [h]
    · simp [h]

theorem registryKeysNodup_constructInstance (key : String) (newId : Nat) (w : World)
    (h : registryKeysNodup w) : registryKeysNodup (constructInstance key newId w) := by
  have hn : ((checkForDuplicateConnections key newId w).registry.map Prod.fst).Nodup := by
    rcases checkForDuplicate_registry key newId w with h1 | h1
    · rw [h1]
      exact h
    · rw [h1]
      exact nodup_keys_eraseKey _ _ h
  show ((constructInstance key newId w).registry.map Prod.fst).Nodup
  unfold constructInstance
  simp only [List.map_cons, List.nodup_cons]
  exact ⟨not_mem_keys_eraseKey key _, nodup_keys_eraseKey key _ hn⟩

theorem registryKeysNodup_runDoCleanup (targetId : Nat) (w : World)
    (h : registryKeysNodup w) : registryKeysNodup (runDoCleanup targetId w) := by
  show ((runDoCleanup targetId w).registry.map Prod.fst).Nodup
  unfold runDoCleanup
  cases hf : w.instances.find? (fun i => i.instId == targetId) with
  | none => exact h
  | some inst => exact nodup_keys_eraseKey _ _ h

/-! ## Claim theorems -/

/-- C1: under every interleaving of concurrent callers (the public get/set
operations and the heartbeat all funnel through `addToQueue`), at most one
queued device-facing operation is ever in flight; a non-priority admission
joins the tail of the queue while a priority admission jumps to its head; and
the drain loop executes operations exactly in queue order: it preserves the
sequence `executed ++ inFlight ++ operationQueue`, so a completed drain has
executed precisely the admitted operations in admission order. -/
theorem c1_queue_serialization_and_fifo :
    (∀ s : QueueState, QReach s → s.inFlight.length ≤ 1) ∧
    (∀ (s s' : QueueState) (op : Nat), addToQueue s op false = Except.ok s' →
        s'.operationQueue = s.operationQueue ++ [op]) ∧
    (∀ (s s' : QueueState) (op : Nat), addToQueue s op true = Except.ok s' →
        s'.operationQueue = op :: s.operationQueue) ∧
    (∀ s t : QueueState, Relation.ReflTransGen ExecStep s t →
        fullSeq t = fullSeq s ∧
        (t.operationQueue = [] → t.inFlight = [] → t.executed = fullSeq s)) := by
  refine ⟨qreach_inFlight_le_one, ?_, ?_, ?_⟩
  · intro s s' op h
    obtain rfl := addToQueue_ok _ _ _ _ h
    simp
  · intro s s' op h
    obtain rfl := addToQueue_ok _ _ _ _ h
    simp
  · intro s t h
    refine ⟨execReach_fullSeq s t h, fun hq hf => ?_⟩
    rw [← execReach_fullSeq s t h]
    simp [fullSeq, hq, hf]

/-- Witness for C1 at concrete inputs: the fresh state is reachable and
serialized, a concrete non-priority admission appends, a concrete priority
admission jumps to the head, and the trivial drain preserves the sequence. -/
theorem c1_queue_serialization_and_fifo_witness :
    qInit.inFlight.length ≤ 1 ∧
    ({ qInit with operationQueue := [5] } : QueueState).operationQueue =
      qInit.operationQueue ++ [5] ∧
    ({ qInit with operationQueue := [7] } : QueueState).operationQueue =
      7 :: qInit.operationQueue ∧
    qInit.executed = fullSeq qInit :=
  ⟨c1_queue_serialization_and_fifo.1 qInit Relation.ReflTransGen.refl,
   c1_queue_serialization_and_fifo.2.1 qInit _ 5 rfl,
   c1_queue_serialization_and_fifo.2.2.1 qInit _ 7 rfl,
   (c1_queue_serialization_and_fifo.2.2.2 qInit qInit Relation.ReflTransGen.refl).2 rfl rfl⟩

/-- C8 counterexample: the saturation guard of `addToQueue` tests
`activeOperations.size` (operations currently executing), not the queue of
admitted-but-unexecuted operations, so four straight admissions from a fresh
instance (no execution in between, `activeSize = 0` throughout) all succeed
and the backlog reaches 4, beyond the claimed bound of 3 — the fourth
admission is not rejected. -/
theorem c8_backlog_counterexample :
    addToQueue qInit 1 false = Except.ok ⟨[1], false, [], [], 0, false⟩ ∧
    addToQueue ⟨[1], false, [], [], 0, false⟩ 2 false =
      Except.ok ⟨[1, 2], false, [], [], 0, false⟩ ∧
    addToQueue ⟨[1, 2], false, [], [], 0, false⟩ 3 false =
      Except.ok ⟨[1, 2, 3], false, [], [], 0, false⟩ ∧
    addToQueue ⟨[1, 2, 3], false, [], [], 0, false⟩ 4 false =
      Except.ok ⟨[1, 2, 3, 4], false, [], [], 0, false⟩ ∧
    ([1, 2, 3] : List Nat).length = maxConcurrentOperations ∧
    maxConcurrentOperations < ([1, 2, 3, 4] : List Nat).length :=
  ⟨rfl, rfl, rfl, rfl, rfl, by decide⟩

/-- C8 (amended): the admission bound of 3 applies to concurrently-executing
operations (`activeOperations.size`), not to admitted-but-unexecuted ones:
admission outside cleanup is rejected with the saturation error exactly when
at least 3 operations are executing, and a successful admission leaves the
executing count unchanged while growing the backlog by one (so the backlog
itself is not bounded by 3). -/
theorem c8_saturation_bound :
    (∀ (s : QueueState) (op : Nat) (priority : Bool),
        s.isCleaningUp = false → maxConcurrentOperations ≤ s.activeSize →
        addToQueue s op priority = Except.error "Too many concurrent operations") ∧
    (∀ (s s' : QueueState) (op : Nat) (priority : Bool),
        addToQueue s op priority = Except.ok s' →
        s'.activeSize = s.activeSize ∧
        s'.operationQueue.length = s.operationQueue.length + 1) := by
  constructor
  · intro s op priority h1 h2
    simp [addToQueue, h1, h2]
  · intro s s' op priority h
    obtain rfl := addToQueue_ok _ _ _ _ h
    refine ⟨rfl, ?_⟩
    by_cases hp : priority = true <;> simp [hp]

/-- Witness for C8 at concrete inputs: a state with three executing
operations rejects admission, and a successful admission from the fresh state
keeps the executing count and grows the backlog by one. -/
theorem c8_saturation_bound_witness :
    addToQueue ⟨[], false, [], [], 3, false⟩ 9 false =
      Except.error "Too many concurrent operations" ∧
    ((⟨[9], false, [], [], 0, false⟩ : QueueState).activeSize =
       (⟨[], false, [], [], 0, false⟩ : QueueState).activeSize ∧
     (⟨[9], false, [], [], 0, false⟩ : QueueState).operationQueue.length =
       (⟨[], false, [], [], 0, false⟩ : QueueState).operationQueue.length + 1) :=
  ⟨c8_saturation_bound.1 ⟨[], false, [], [], 3, false⟩ 9 false rfl (by decide),
   c8_saturation_bound.2 ⟨[], false, [], [], 0, false⟩ ⟨[9], false, [], [], 0, false⟩ 9 false rfl⟩

/-- C3: the reconnect delay for retry count n is exactly
`min(5000 * 2^n, 60000)` plus the jitter summand; the delay net of jitter is
non-decreasing in the attempt count; with jitter at most 1000ms the whole
delay never exceeds the cap plus 1000ms; and in every reachable connection
state a successful operation implies a zero retry counter — operations only
run while connected, a successful connect zeroes the counter, and nothing
raises it while connected — so after any successful operation the attempt
counter sits at the base. -/
theorem c3_backoff_curve :
    (∀ retryCount jitter : Nat,
        reconnectDelay retryCount jitter = min (5000 * 2 ^ retryCount) 60000 + jitter) ∧
    (∀ m n : Nat, m ≤ n → exponentialDelay m ≤ exponentialDelay n) ∧
    (∀ retryCount jitter : Nat, jitter ≤ 1000 →
        reconnectDelay retryCount jitter ≤ 60000 + 1000) ∧
    (∀ (maxRetries : Nat) (s : ClientState), ConnReach maxRetries s →
        s.isConnected = true → s.connectionRetryCount = 0) := by
  refine ⟨fun r j => rfl, ?_, ?_, connReach_connected_retry_zero⟩
  · intro m n h
    unfold exponentialDelay
    exact min_le_min (Nat.mul_le_mul_left _ (Nat.pow_le_pow_right (by norm_num) h)) le_rfl
  · intro r j hj
    unfold reconnectDelay
    exact Nat.add_le_add (min_le_right _ _) hj

/-- Witness for C3 at concrete inputs: the delay formula at retry count 2 and
jitter 500, monotonicity between counts 1 and 3, the cap bound at count 10 and
jitter 999, and the zero retry counter of the connected state reached by one
successful connect from a fresh instance. -/
theorem c3_backoff_curve_witness :
    reconnectDelay 2 500 = min (5000 * 2 ^ 2) 60000 + 500 ∧
    exponentialDelay 1 ≤ exponentialDelay 3 ∧
    reconnectDelay 10 999 ≤ 60000 + 1000 ∧
    ({ connInit with
        isConnected := true, connectionRetryCount := 0, cache := [],
        pendingReads := [], reconnectScheduled := false } : ClientState).connectionRetryCount
      = 0 :=
  ⟨c3_backoff_curve.1 2 500,
   c3_backoff_curve.2.1 1 3 (by decide),
   c3_backoff_curve.2.2.1 10 999 (by decide),
   c3_backoff_curve.2.2.2 3 _
     (Relation.ReflTransGen.single (ConnStep.connectSuccess connInit)) rfl⟩

/-- C7: the recovery path of `executeWithRetry` never inspects the error — a
failure classified as device-busy (Modbus exception code 6) is handled by
`handleConnectionFailure` exactly like a transport failure: the connection is
marked broken (`isConnected := false`), the cache is flushed and a reconnect
is scheduled.  This contradicts the claim (and the repository README's
advertised device-busy detection) that a busy device never degrades the
connection. -/
theorem c7_device_busy_marks_connection_broken :
    ∀ (maxRetries : Nat) (s : ClientState),
      (handleOperationFailure maxRetries OpError.deviceBusy s).isConnected = false ∧
      (handleOperationFailure maxRetries OpError.deviceBusy s).reconnectScheduled = true ∧
      (handleOperationFailure maxRetries OpError.deviceBusy s).cache = [] ∧
      handleOperationFailure maxRetries OpError.deviceBusy s =
        handleOperationFailure maxRetries OpError.transportError s := by
  intro maxRetries s
  exact ⟨rfl, rfl, rfl, rfl⟩

/-- C4: on a cache miss with an in-flight read for the same register, the
second caller joins the existing pending promise — no further device request
is issued and both callers hold the same promise, hence observe the same
resolved value; starting from no cache entry and no pending read, two
back-to-back calls issue exactly one device request and return the same
promise; and read completion clears the pending marker on success and on
failure alike. -/
theorem c4_single_flight_coalescing :
    (∀ (now register : Nat) (s : CState) (p : Nat),
        (getCachedValue now (cacheKey register) s.cache).1 = none →
        lookupKey register s.pendingReads = some p →
        (batchReadRegister now register s).1 = ReadResult.joined p ∧
        ((batchReadRegister now register s).2).deviceRequests = s.deviceRequests) ∧
    (∀ (now register : Nat) (s : CState),
        (getCachedValue now (cacheKey register) s.cache).1 = none →
        lookupKey register s.pendingReads = none →
        (batchReadRegister now register s).1 = ReadResult.newRead s.nextPromiseId ∧
        ((batchReadRegister now register s).2).deviceRequests = s.deviceRequests + 1 ∧
        (batchReadRegister now register ((batchReadRegister now register s).2)).1 =
          ReadResult.joined s.nextPromiseId ∧
        (batchReadRegister now register ((batchReadRegister now register s).2)).2 =
          (batchReadRegister now register s).2) ∧
    (∀ (now register : Nat) (v : Int) (ct : Nat) (s : CState),
        lookupKey register (completeReadSuccess now register v ct s).pendingReads = none ∧
        lookupKey register (completeReadFailure register s).pendingReads = none) := by
  refine ⟨?_, ?_, ?_⟩
  · intro now register s p hmiss hpend
    rw [batchRead_join now register s p hmiss hpend]
    exact ⟨rfl, rfl⟩
  · intro now register s hmiss hpend
    have h1 := batchRead_newRead now register s hmiss hpend
    have hmiss1 : (getCachedValue now (cacheKey register)
        ((batchReadRegister now register s).2).cache).1 = none := by
      rw [h1]
      rw [getCachedValue_of_lookup_none now _ _
        (getCachedValue_snd_lookup_none now _ _ hmiss)]
    have hpend1 : lookupKey register ((batchReadRegister now register s).2).pendingReads =
        some s.nextPromiseId := by
      rw [h1]
      simp [lookupKey]
    have h2 := batchRead_join now register ((batchReadRegister now register s).2)
      s.nextPromiseId hmiss1 hpend1
    refine ⟨by rw [h1], by rw [h1], by rw [h2], ?_⟩
    rw [h2]
    have hcu : (getCachedValue now (cacheKey register)
        ((batchReadRegister now register s).2).cache).2 =
        ((batchReadRegister now register s).2).cache := by
      have hlk : lookupKey (cacheKey register)
          ((batchReadRegister now register s).2).cache = none := by
        rw [h1]
        exact getCachedValue_snd_lookup_none now _ _ hmiss
      rw [getCachedValue_of_lookup_none now _ _ hlk]
    rw [hcu]
  · intro now register v ct s
    exact ⟨lookupKey_eraseKey_self register s.pendingReads,
      lookupKey_eraseKey_self register s.pendingReads⟩

/-- Witness for C4 at concrete inputs: joining a concrete pending read, the
two back-to-back calls from an empty state, and pending-marker clearing. -/
theorem c4_single_flight_coalescing_witness :
    ((batchReadRegister 0 1001 ⟨[], [(1001, 42)], 43, 7⟩).1 = ReadResult.joined 42 ∧
     ((batchReadRegister 0 1001 ⟨[], [(1001, 42)], 43, 7⟩).2).deviceRequests = 7) ∧
    ((batchReadRegister 0 1001 ⟨[], [], 0, 0⟩).1 = ReadResult.newRead 0 ∧
     ((batchReadRegister 0 1001 ⟨[], [], 0, 0⟩).2).deviceRequests = 0 + 1 ∧
     (batchReadRegister 0 1001 ((batchReadRegister 0 1001 ⟨[], [], 0, 0⟩).2)).1 =
       ReadResult.joined 0 ∧
     (batchReadRegister 0 1001 ((batchReadRegister 0 1001 ⟨[], [], 0, 0⟩).2)).2 =
       (batchReadRegister 0 1001 ⟨[], [], 0, 0⟩).2) ∧
    (lookupKey 1001 (completeReadSuccess 0 1001 5 3000 ⟨[], [(1001, 42)], 43, 7⟩).pendingReads
       = none ∧
     lookupKey 1001 (completeReadFailure 1001 ⟨[], [(1001, 42)], 43, 7⟩).pendingReads = none) :=
  ⟨c4_single_flight_coalescing.1 0 1001 ⟨[], [(1001, 42)], 43, 7⟩ 42 rfl rfl,
   c4_single_flight_coalescing.2.1 0 1001 ⟨[], [], 0, 0⟩ rfl rfl,
   c4_single_flight_coalescing.2.2 0 1001 5 3000 ⟨[], [(1001, 42)], 43, 7⟩⟩

/-- C5: a `setRegime` write removes the cached entry for the regime register
and a `setSpeed` write removes the cached entries for both the regime and the
speed register (removal, not update); after such an invalidation, a read with
no read in flight for that register issues a fresh device request. -/
theorem c5_write_invalidates_cache :
    (∀ (regimeRegister : Nat) (c : Cache),
        lookupKey (cacheKey regimeRegister) (handleOnSetOnCache regimeRegister c) = none) ∧
    (∀ (regimeRegister speedRegister : Nat) (c : Cache),
        lookupKey (cacheKey regimeRegister)
            (handleOnSetSpeedCache regimeRegister speedRegister c) = none ∧
        lookupKey (cacheKey speedRegister)
            (handleOnSetSpeedCache regimeRegister speedRegister c) = none) ∧
    (∀ (now register : Nat) (s : CState),
        lookupKey (cacheKey register) s.cache = none →
        lookupKey register s.pendingReads = none →
        (batchReadRegister now register s).1 = ReadResult.newRead s.nextPromiseId ∧
        ((batchReadRegister now register s).2).deviceRequests = s.deviceRequests + 1) := by
  refine ⟨?_, ?_, ?_⟩
  · intro regimeRegister c
    exact lookupKey_eraseKey_self _ c
  · intro regimeRegister speedRegister c
    constructor
    · unfold handleOnSetSpeedCache
      by_cases heq : cacheKey regimeRegister = cacheKey speedRegister
      · rw [heq]
        exact lookupKey_eraseKey_self _ _
      · rw [lookupKey_eraseKey_ne _ _ _ heq]
        exact lookupKey_eraseKey_self _ _
    · exact lookupKey_eraseKey_self _ _
  · intro now register s hc hp
    have h1 := batchRead_newRead now register s
      (by rw [getCachedValue_of_lookup_none now _ _ hc]) hp
    rw [h1]
    exact ⟨rfl, rfl⟩

/-- Witness for C5 at concrete inputs: invalidation of a populated cache and
the fresh device request of the subsequent read. -/
theorem c5_write_invalidates_cache_witness :
    lookupKey (cacheKey 1001)
      (handleOnSetOnCache 1001 [(cacheKey 1001, ⟨2, 0, 3000⟩)]) = none ∧
    (lookupKey (cacheKey 1001)
        (handleOnSetSpeedCache 1001 1004
          [(cacheKey 1001, ⟨2, 0, 3000⟩), (cacheKey 1004, ⟨50, 0, 3000⟩)]) = none ∧
     lookupKey (cacheKey 1004)
        (handleOnSetSpeedCache 1001 1004
          [(cacheKey 1001, ⟨2, 0, 3000⟩), (cacheKey 1004, ⟨50, 0, 3000⟩)]) = none) ∧
    ((batchReadRegister 5 1001 ⟨[], [], 9, 4⟩).1 = ReadResult.newRead 9 ∧
     ((batchReadRegister 5 1001 ⟨[], [], 9, 4⟩).2).deviceRequests = 4 + 1) :=
  ⟨c5_write_invalidates_cache.1 1001 [(cacheKey 1001, ⟨2, 0, 3000⟩)],
   c5_write_invalidates_cache.2.1 1001 1004
     [(cacheKey 1001, ⟨2, 0, 3000⟩), (cacheKey 1004, ⟨50, 0, 3000⟩)],
   c5_write_invalidates_cache.2.2 5 1001 ⟨[], [], 9, 4⟩ rfl rfl⟩

/-- C6 counterexample: the claimed validity window is strict
(`now - writtenAt < ttl`), but `getCachedValue` only expires an entry when
`now - timestamp` strictly exceeds the ttl: at `now - writtenAt = ttl` the
entry (value 7, written at 0, ttl 3000, read at 3000) is still served although
the claimed window says it is invalid. -/
theorem c6_boundary_counterexample :
    (getCachedValue 3000 (cacheKey 1001) [(cacheKey 1001, ⟨7, 0, 3000⟩)]).1 = some 7 ∧
    ¬ specCacheValid 3000 ⟨7, 0, 3000⟩ :=
  ⟨rfl, by decide⟩

/-- C6 (amended): a present cache entry is served exactly while
`now - writtenAt ≤ ttl` (expiry only when strictly greater); and after a read
stored value v at time t0, every later read of the same register at a time t
with `t - t0 ≤ ttl` and no intervening write is a cache hit returning the
identical value v, leaving the state unchanged (hence issuing no device
request, and every further read in the window behaves the same). -/
theorem c6_ttl_cache_hits :
    (∀ (now : Nat) (key : String) (c : Cache) (e : CachedValue),
        lookupKey key c = some e →
        ((getCachedValue now key c).1 = some e.value ↔ now - e.timestamp ≤ e.ttl)) ∧
    (∀ (s : CState) (register : Nat) (v : Int) (cacheTimeout t0 t : Nat),
        t - t0 ≤ cacheTimeout →
        batchReadRegister t register (completeReadSuccess t0 register v cacheTimeout s) =
          (ReadResult.cacheHit v, completeReadSuccess t0 register v cacheTimeout s)) := by
  constructor
  · intro now key c e hl
    unfold getCachedValue
    rw [hl]
    by_cases hexp : e.ttl < now - e.timestamp
    · simp only [hexp, if_pos]
      constructor
      · intro h
        exact absurd h (by simp)
      · intro h
        omega
    · simp only [hexp, if_false, ite_false]
      constructor
      · intro _
        omega
      · intro _
        trivial
  · intro s register v cacheTimeout t0 t ht
    have hl : lookupKey (cacheKey register)
        (completeReadSuccess t0 register v cacheTimeout s).cache =
        some ⟨v, t0, cacheTimeout⟩ := by
      show lookupKey (cacheKey register)
        ((cacheKey register, ⟨v, t0, cacheTimeout⟩) ::
          eraseKey (cacheKey register) s.cache) = some ⟨v, t0, cacheTimeout⟩
      simp [lookupKey]
    have hnotexp : ¬ ((⟨v, t0, cacheTimeout⟩ : CachedValue).ttl <
        t - (⟨v, t0, cacheTimeout⟩ : CachedValue).timestamp) := by
      show ¬ (cacheTimeout < t - t0)
      omega
    have hgc : getCachedValue t (cacheKey register)
        (completeReadSuccess t0 register v cacheTimeout s).cache =
        (some v, (completeReadSuccess t0 register v cacheTimeout s).cache) := by
      unfold getCachedValue
      rw [hl]
      simp [hnotexp]
    rw [batchRead_cacheHit t register _ v (by rw [hgc])]
    rw [hgc]

/-- Witness for C6 (amended) at concrete inputs: the served/expired boundary
of a concrete entry and a concrete repeat read inside the window. -/
theorem c6_ttl_cache_hits_witness :
    ((getCachedValue 2000 (cacheKey 1001) [(cacheKey 1001, ⟨7, 0, 3000⟩)]).1 = some 7 ↔
      2000 - 0 ≤ 3000) ∧
    batchReadRegister 2500 1001 (completeReadSuccess 0 1001 7 3000 ⟨[], [], 1, 1⟩) =
      (ReadResult.cacheHit 7, completeReadSuccess 0 1001 7 3000 ⟨[], [], 1, 1⟩) :=
  ⟨c6_ttl_cache_hits.1 2000 (cacheKey 1001) [(cacheKey 1001, ⟨7, 0, 3000⟩)] ⟨7, 0, 3000⟩ rfl,
   c6_ttl_cache_hits.2 ⟨[], [], 1, 1⟩ 1001 7 3000 0 2500 (by decide)⟩

/-- C9 counterexample: a `setSpeed(0)` issued while the device is off (regime
register 1001 reads 0) does not perform the claimed sequence: no on-sentinel
write of 2 to the regime register and no 800ms wait occur — only the speed
write — and `getRegime` afterward returns 0, not logical 1.  The claim as
stated quantifies over every `setSpeed` request while off, so it fails at
speed 0. -/
theorem c9_speed_zero_counterexample :
    handleOnSetSpeedActions 1001 1004 (readReg ⟨[(1001, 0)]⟩ 1001) 0 =
      [Action.write 1004 0] ∧
    Action.write 1001 2 ∉ handleOnSetSpeedActions 1001 1004 (readReg ⟨[(1001, 0)]⟩ 1001) 0 ∧
    Action.sleepMs 800 ∉ handleOnSetSpeedActions 1001 1004 (readReg ⟨[(1001, 0)]⟩ 1001) 0 ∧
    handleOnGetOnValue
        (readReg (applyActions ⟨[(1001, 0)]⟩
          (handleOnSetSpeedActions 1001 1004 (readReg ⟨[(1001, 0)]⟩ 1001) 0)) 1001) = 0 :=
  ⟨rfl, by decide, by decide, rfl⟩

/-- C9 (amended): for every `setSpeed` request with a positive speed issued
while the device is off (the regime register reads 0), the handler emits
exactly: write the on-sentinel 2 to the regime register, sleep 800ms (which
meets the at-least-800ms wait), then write the requested speed to the speed
register; and a `getRegime` performed after this trace reads the device's
regime register as 2 and maps it to logical 1. -/
theorem c9_set_speed_while_off (regimeRegister speedRegister : Nat) (d : Device)
    (speed : Int) (hne : speedRegister ≠ regimeRegister)
    (hoff : readReg d regimeRegister = 0) (hpos : 0 < speed) :
    handleOnSetSpeedActions regimeRegister speedRegister (readReg d regimeRegister) speed =
      [Action.write regimeRegister 2, Action.sleepMs 800,
       Action.write speedRegister speed] ∧
    handleOnGetOnValue
        (readReg (applyActions d
          (handleOnSetSpeedActions regimeRegister speedRegister
            (readReg d regimeRegister) speed)) regimeRegister) = 1 := by
  have htrace : handleOnSetSpeedActions regimeRegister speedRegister
      (readReg d regimeRegister) speed =
      [Action.write regimeRegister 2, Action.sleepMs 800,
       Action.write speedRegister speed] := by
    rw [hoff]
    unfold handleOnSetSpeedActions
    simp [hpos]
  refine ⟨htrace, ?_⟩
  rw [htrace]
  have hread : readReg (applyActions d
      [Action.write regimeRegister 2, Action.sleepMs 800,
       Action.write speedRegister speed]) regimeRegister = 2 := by
    simp only [applyActions]
    unfold readReg writeReg
    simp only [lookupKey, hne, if_neg]
    rw [lookupKey_eraseKey_ne _ _ _ (Ne.symm hne)]
    simp [lookupKey]
  rw [hread]
  rfl

/-- Witness for C9 (amended) at concrete inputs: endpoint registers 1001 and
1004, device off, requested speed 50. -/
theorem c9_set_speed_while_off_witness :
    handleOnSetSpeedActions 1001 1004 (readReg ⟨[(1001, 0)]⟩ 1001) 50 =
      [Action.write 1001 2, Action.sleepMs 800, Action.write 1004 50] ∧
    handleOnGetOnValue
        (readReg (applyActions ⟨[(1001, 0)]⟩
          (handleOnSetSpeedActions 1001 1004 (readReg ⟨[(1001, 0)]⟩ 1001) 50)) 1001) = 1 :=
  c9_set_speed_while_off 1001 1004 ⟨[(1001, 0)]⟩ 50 (by decide) rfl (by decide)

/-- C10: `getRegime` maps the raw regime value 0 to 0 and every nonzero raw
value to 1, so it only ever returns 0 or 1; `setRegime` writes 2 for every
input at least 1 and 0 otherwise, so it only ever writes the raw values 0 or
2 — never the logical value 1. -/
theorem c10_logical_on_mapping :
    (∀ raw : Int, handleOnGetOnValue raw = if raw = 0 then 0 else 1) ∧
    (∀ raw : Int, handleOnGetOnValue raw = 0 ∨ handleOnGetOnValue raw = 1) ∧
    (∀ value : Int, handleOnSetOnValue value = if 1 ≤ value then 2 else 0) ∧
    (∀ value : Int, handleOnSetOnValue value = 0 ∨ handleOnSetOnValue value = 2) ∧
    (∀ value : Int, handleOnSetOnValue value ≠ 1) := by
  refine ⟨fun raw => rfl, ?_, fun value => rfl, ?_, ?_⟩
  · intro raw
    unfold handleOnGetOnValue
    by_cases h : raw = 0 <;> simp [h]
  · intro value
    unfold handleOnSetOnValue
    by_cases h : 1 ≤ value <;> simp [h]
  · intro value
    unfold handleOnSetOnValue
    by_cases h : 1 ≤ value <;> simp [h]

/-- C2: the `activeConnections` registry keeps at most one entry per endpoint
at all times (key uniqueness is preserved by registration and by cleanup, and
a well-formed registry holds at most one entry for any endpoint); and
constructing a second instance for an endpoint with a distinct live instance
forcibly tears the first down: after the construction, the connect of the new
instance, and the completed cleanup of the old one, the registry held only the
new entry at registration time, exactly one live instance and exactly one
transport connection for the endpoint remain, and the old instance has no
transport, no registered timeouts, no heartbeat timer and no reconnect timer. -/
theorem c2_registry_single_instance :
    (∀ (w : World) (k : String), registryKeysNodup w →
        (w.registry.filter (fun e => e.1 == k)).length ≤ 1) ∧
    (∀ (key : String) (newId : Nat) (w : World), registryKeysNodup w →
        registryKeysNodup (constructInstance key newId w)) ∧
    (∀ (targetId : Nat) (w : World), registryKeysNodup w →
        registryKeysNodup (runDoCleanup targetId w)) ∧
    (∀ (key : String) (oldId newId : Nat) (hasC : Bool) (tc : Nat) (hb rc : Bool)
        (q : List Nat), oldId ≠ newId →
        (constructInstance key newId
            ⟨[(key, oldId)], [⟨oldId, key, hasC, tc, hb, rc, q, false⟩]⟩).registry =
          [(key, newId)] ∧
        (liveInstancesFor key (runDoCleanup oldId (connectInstance newId
            (constructInstance key newId
              ⟨[(key, oldId)], [⟨oldId, key, hasC, tc, hb, rc, q, false⟩]⟩)))).length = 1 ∧
        (clientsFor key (runDoCleanup oldId (connectInstance newId
            (constructInstance key newId
              ⟨[(key, oldId)], [⟨oldId, key, hasC, tc, hb, rc, q, false⟩]⟩)))).length = 1 ∧
        ∀ i ∈ (runDoCleanup oldId (connectInstance newId
            (constructInstance key newId
              ⟨[(key, oldId)], [⟨oldId, key, hasC, tc, hb, rc, q, false⟩]⟩))).instances,
          i.instId = oldId →
          i.hasClient = false ∧ i.timeoutCount = 0 ∧ i.heartbeatSet = false ∧
          i.reconnectSet = false ∧ i.isCleaningUp = true) := by
  refine ⟨?_, registryKeysNodup_constructInstance, registryKeysNodup_runDoCleanup, ?_⟩
  · intro w k h
    exact nodup_keys_filter_length_le_one w.registry k h
  · intro key oldId newId hasC tc hb rc q hid
    have hch : checkForDuplicateConnections key newId
        ⟨[(key, oldId)], [⟨oldId, key, hasC, tc, hb, rc, q, false⟩]⟩ =
        ⟨[], [⟨oldId, key, hasC, tc, hb, rc, q, true⟩]⟩ := by
      unfold checkForDuplicateConnections
      simp [lookupKey, hid, eraseKey]
    have hco : constructInstance key newId
        ⟨[(key, oldId)], [⟨oldId, key, hasC, tc, hb, rc, q, false⟩]⟩ =
        ⟨[(key, newId)],
         [⟨newId, key, false, 0, false, false, [], false⟩,
          ⟨oldId, key, hasC, tc, hb, rc, q, true⟩]⟩ := by
      unfold constructInstance
      rw [hch]
      simp [eraseKey]
    have hcon : connectInstance newId
        (⟨[(key, newId)],
          [⟨newId, key, false, 0, false, false, [], false⟩,
           ⟨oldId, key, hasC, tc, hb, rc, q, true⟩]⟩ : World) =
        ⟨[(key, newId)],
         [⟨newId, key, true, 0, false, false, [], false⟩,
          ⟨oldId, key, hasC, tc, hb, rc, q, true⟩]⟩ := by
      unfold connectInstance
      simp [hid]
    have hbeq : (newId == oldId) = false := by
      simp only [beq_eq_false_iff_ne, ne_eq]
      exact Ne.symm hid
    have hrun : runDoCleanup oldId
        (⟨[(key, newId)],
          [⟨newId, key, true, 0, false, false, [], false⟩,
           ⟨oldId, key, hasC, tc, hb, rc, q, true⟩]⟩ : World) =
        ⟨[],
         [⟨newId, key, true, 0, false, false, [], false⟩,
          ⟨oldId, key, false, 0, false, false, [], true⟩]⟩ := by
      unfold runDoCleanup
      have hfind : (([⟨newId, key, true, 0, false, false, [], false⟩,
          ⟨oldId, key, hasC, tc, hb, rc, q, true⟩] : List Inst).find?
            (fun i => i.instId == oldId)) =
          some ⟨oldId, key, hasC, tc, hb, rc, q, true⟩ := by
        simp [List.find?, hbeq]
      rw [hfind]
      simp [doCleanupInst, eraseKey, hid, Ne.symm hid]
    refine ⟨by rw [hco], ?_, ?_, ?_⟩
    · rw [hco, hcon, hrun]
      simp [liveInstancesFor]
    · rw [hco, hcon, hrun]
      simp [clientsFor]
    · rw [hco, hcon, hrun]
      intro i hi hiid
      simp only [List.mem_cons, List.not_mem_nil, or_false] at hi
      rcases hi with rfl | rfl
      · exact absurd hiid (Ne.symm hid)
      · exact ⟨rfl, rfl, rfl, rfl, rfl⟩

/-- Witness for C2 at concrete inputs: a one-entry registry, the construction
of instance 2 over the live instance 1 of the same endpoint, connect of the
new instance and completed cleanup of the old one. -/
theorem c2_registry_single_instance_witness :
    (((⟨[("k", 1)], []⟩ : World).registry.filter (fun e => e.1 == "k")).length ≤ 1) ∧
    registryKeysNodup (constructInstance "k" 2 ⟨[("k", 1)], []⟩) ∧
    registryKeysNodup (runDoCleanup 1 ⟨[("k", 1)], []⟩) ∧
    ((constructInstance "k" 2
        ⟨[("k", 1)], [⟨1, "k", true, 2, true, true, [3], false⟩]⟩).registry =
      [("k", 2)] ∧
     (liveInstancesFor "k" (runDoCleanup 1 (connectInstance 2
        (constructInstance "k" 2
          ⟨[("k", 1)], [⟨1, "k", true, 2, true, true, [3], false⟩]⟩)))).length = 1 ∧
     (clientsFor "k" (runDoCleanup 1 (connectInstance 2
        (constructInstance "k" 2
          ⟨[("k", 1)], [⟨1, "k", true, 2, true, true, [3], false⟩]⟩)))).length = 1 ∧
     ∀ i ∈ (runDoCleanup 1 (connectInstance 2
        (constructInstance "k" 2
          ⟨[("k", 1)], [⟨1, "k", true, 2, true, true, [3], false⟩]⟩))).instances,
       i.instId = 1 →
       i.hasClient = false ∧ i.timeoutCount = 0 ∧ i.heartbeatSet = false ∧
       i.reconnectSet = false ∧ i.isCleaningUp = true) :=
  ⟨c2_registry_single_instance.1 ⟨[("k", 1)], []⟩ "k" (by decide),
   c2_registry_single_instance.2.1 "k" 2 ⟨[("k", 1)], []⟩ (by decide),
   c2_registry_single_instance.2.2.1 1 ⟨[("k", 1)], []⟩ (by decide),
   c2_registry_single_instance.2.2.2 "k" 1 2 true 2 true true [3] (by decide)⟩

end AtreaHRU
